import Mathlib

set_option maxHeartbeats 1000000
set_option maxRecDepth 8192
set_option exponentiation.threshold 1100

/-!
Shallow embedding of the snapshot and change-detection core of the
X-UI Reminder Bot, verified against its natural-language specification.

Modelling conventions:
* Python ints are unbounded `Int`; Python floats are modelled as exact
  rationals, except that converting an int to a float raises OverflowError
  exactly when CPython does (absolute value at least 2^1024 - 2^970), and
  truncating a float value back to int raises OverflowError when the float
  arithmetic that produced it would already have overflowed to infinity.
  IEEE rounding is not modelled; no claim in scope depends on it, and all
  concrete inputs used below are exactly representable.
* Field values of a client dict are modelled by `PyVal`: None, int, bool,
  string, or an opaque non-numeric value (`vBad`) standing for lists and
  dicts, whose numeric coercion raises TypeError.  Numeric strings are
  modelled in integer-literal form only; fractional or exponent string
  forms, and non-string client ids, are outside the modelled universe.
* Fallible code returns `Except PyExc`; a `try/except` clause is an explicit
  match on the error.
-/

/-- Python exception classes relevant to the embedded code. -/
inductive PyExc where
  | valueError
  | typeError
  | keyError
  | overflowError
deriving DecidableEq, Repr

/-- Model of a Python value stored in a client dict field. -/
inductive PyVal where
  | vNone
  | vInt (n : ℤ)
  | vBool (b : Bool)
  | vStr (s : String)
  | vBad (truthy : Bool)
deriving DecidableEq, Repr

instance {ε α : Type} [DecidableEq ε] [DecidableEq α] : DecidableEq (Except ε α) := fun a b =>
  match a, b with
  | .ok x, .ok y =>
    match decEq x y with
    | isTrue h => isTrue (congrArg Except.ok h)
    | isFalse h => isFalse fun hh => h (Except.ok.inj hh)
  | .error x, .error y =>
    match decEq x y with
    | isTrue h => isTrue (congrArg Except.error h)
    | isFalse h => isFalse fun hh => h (Except.error.inj hh)
  | .ok _, .error _ => isFalse fun hh => Except.noConfusion hh
  | .error _, .ok _ => isFalse fun hh => Except.noConfusion hh

/-- A client dict, as an association list with distinct keys. -/
abbrev Client := List (String × PyVal)

/-- Python truthiness of a modelled value. -/
def pyTruthy : PyVal → Bool
  | .vNone => false
  | .vInt n => n != 0
  | .vBool b => b
  | .vStr s => s != ""
  | .vBad t => t

/-- Python `x or 0`. -/
def pyOr0 (v : PyVal) : PyVal := if pyTruthy v then v else .vInt 0

/-- Python `a or b`, as used in the chained fallback over expiry fields. -/
def pyOrElse (a b : PyVal) : PyVal := if pyTruthy a then a else b

/-- Python `dict.get(key, default)`. -/
def clientGet (c : Client) (k : String) (d : PyVal) : PyVal :=
  match c.lookup k with
  | some v => v
  | none => d

/-- Python `int(x)`: ints and bools convert, integer-literal strings parse
(ValueError otherwise), None and non-numeric values raise TypeError. -/
def pyInt : PyVal → Except PyExc ℤ
  | .vInt n => .ok n
  | .vBool b => .ok (if b then 1 else 0)
  | .vStr s =>
    match s.trim.toInt? with
    | some n => .ok n
    | none => .error .valueError
  | .vNone => .error .typeError
  | .vBad _ => .error .typeError

/-- Smallest magnitude at which CPython raises OverflowError when converting
an int to a float: 2^1024 - 2^970 (the first integer that rounds to
infinity under round-to-nearest-even). -/
def floatOverflowBound : ℕ := 2 ^ 1024 - 2 ^ 970

/-- Python `float(n)` for an int `n`. -/
def pyFloatOfInt (n : ℤ) : Except PyExc ℚ :=
  if n.natAbs < floatOverflowBound then .ok (n : ℚ) else .error .overflowError

/-- Python `float(x)`.  String parses are modelled in integer-literal form and
yield their exact value (CPython returns infinity for out-of-range string
literals; the subsequent `int(...)` of such a value raises OverflowError,
which `pyTruncFloat` below reproduces at the same program point). -/
def pyFloat : PyVal → Except PyExc ℚ
  | .vNone => .error .typeError
  | .vInt n => pyFloatOfInt n
  | .vBool b => .ok (if b then 1 else 0)
  | .vStr s =>
    match s.trim.toInt? with
    | some n => .ok (n : ℚ)
    | none => .error .valueError
  | .vBad _ => .error .typeError

/-- Exact product of two rationals.  The standard `Mul ℚ` instance is
irreducible, so the embedding uses this definitionally equivalent form,
which the kernel can evaluate on concrete inputs. -/
def ratMul (a b : ℚ) : ℚ :=
  Rat.normalize (a.num * b.num) (a.den * b.den) (Nat.mul_ne_zero a.den_nz b.den_nz)

/-- Exact quotient of two rationals (second argument nonzero at every use
site), in kernel-evaluable form. -/
def ratDivQ (a b : ℚ) : ℚ := Rat.divInt (a.num * b.den) (a.den * b.num)

/-- Exact difference of two rationals, in kernel-evaluable form. -/
def ratSub (a b : ℚ) : ℚ :=
  Rat.divInt (a.num * b.den - b.num * a.den) (a.den * b.den)

/-- Truncation toward zero, the behaviour of Python `int` on a finite float. -/
def ratTrunc (q : ℚ) : ℤ := Int.tdiv q.num q.den

/-- Python `int(f)` for a float value: raises OverflowError when the float
arithmetic producing `f` would have overflowed to infinity.  The guard
encodes the magnitude comparison against `floatOverflowBound` on the
numerator and denominator. -/
def pyTruncFloat (q : ℚ) : Except PyExc ℤ :=
  if q.num.natAbs < floatOverflowBound * q.den then .ok (ratTrunc q)
  else .error .overflowError

/-- Python `n / d` where `n` is an int and `d` a float literal: `n` is first
converted to float (which can raise OverflowError), then divided exactly. -/
def pyDivFloat (n : ℤ) (d : ℚ) : Except PyExc ℚ := do
  let x ← pyFloatOfInt n
  pure (ratDivQ x d)

/-- Lines 28-30 of data_processor.calculate_client_status, identical to lines
22-24 of snapshot_builder: `used_bytes = int(up or 0) + int(down or 0)`. -/
def clientUsedBytes (c : Client) : Except PyExc ℤ := do
  let up ← pyInt (pyOr0 (clientGet c "up" (.vInt 0)))
  let down ← pyInt (pyOr0 (clientGet c "down" (.vInt 0)))
  pure (up + down)

/-- Lines 32-46 of data_processor.calculate_client_status: quota in bytes,
from totalGB (a GB magnitude, scaled by 1024^3), else total (bytes), else
the alternative GB field `limit`. -/
def clientTotalBytesDP (c : Client) : Except PyExc ℤ := do
  let total_gb_val := pyOr0 (clientGet c "totalGB" (.vInt 0))
  let total_bytes_val := pyOr0 (clientGet c "total" (.vInt 0))
  let tg ← pyFloat (pyOr0 total_gb_val)
  if 0 < tg then do
    let q ← pyFloat total_gb_val
    pyTruncFloat (ratMul q 1073741824)
  else do
    let tb ← pyFloat (pyOr0 total_bytes_val)
    if 0 < tb then do
      let q ← pyFloat total_bytes_val
      pyTruncFloat q
    else do
      let alt_total_gb := pyOr0 (clientGet c "limit" (.vInt 0))
      let qa ← pyFloat alt_total_gb
      if 0 < qa then pyTruncFloat (ratMul qa 1073741824) else pure 0

/-- Lines 26-33 of snapshot_builder: same quota computation but with no
`limit` fallback branch. -/
def clientTotalBytesSB (c : Client) : Except PyExc ℤ := do
  let total_gb_val := pyOr0 (clientGet c "totalGB" (.vInt 0))
  let total_bytes_val := pyOr0 (clientGet c "total" (.vInt 0))
  let tg ← pyFloat (pyOr0 total_gb_val)
  if 0 < tg then do
    let q ← pyFloat total_gb_val
    pyTruncFloat (ratMul q 1073741824)
  else do
    let tb ← pyFloat (pyOr0 total_bytes_val)
    if 0 < tb then do
      let q ← pyFloat total_bytes_val
      pyTruncFloat q
    else pure 0

/-- Lines 48-52 of data_processor (35-39 of snapshot_builder): expiry in
milliseconds, first truthy of expiryTime, expire, expiry, else 0. -/
def clientExpiryMs (c : Client) : Except PyExc ℤ :=
  pyInt (pyOrElse (clientGet c "expiryTime" (.vInt 0))
    (pyOrElse (clientGet c "expire" (.vInt 0))
      (pyOrElse (clientGet c "expiry" (.vInt 0)) (.vInt 0))))

/-- Lines 55-97 of data_processor.calculate_client_status: classification from
the accumulated numbers.  Note that `expired_time` divides the expiry by
1000.0 eagerly whenever it is positive, so an expiry too large for a float
raises OverflowError here even when the quota already decided the status. -/
def classifyTailDP (sTh bTh : ℤ) (total_bytes used_bytes expiry_ms : ℤ) (now : ℚ) :
    Except PyExc (Bool × Bool) := do
  let left_bytes : Option ℤ :=
    if 0 < total_bytes then some (total_bytes - used_bytes) else none
  let expired_quota : Bool :=
    match left_bytes with
    | some l => decide (l ≤ 0)
    | none => false
  let expired_time : Bool ←
    if 0 < expiry_ms then do
      let q ← pyDivFloat expiry_ms 1000
      pure (decide (q ≤ now))
    else pure false
  let is_expired := expired_quota || expired_time
  if is_expired then
    pure (false, true)
  else do
    let expiring_time : Bool ←
      if 0 < expiry_ms then do
        let q ← pyDivFloat expiry_ms 1000
        let secs_left := ratSub q now
        pure (decide (0 < secs_left) && decide (secs_left ≤ (sTh : ℚ)))
      else pure false
    let expiring_quota : Bool :=
      match left_bytes with
      | some l => decide (0 < total_bytes) && (decide (0 < l) && decide (l ≤ bTh))
      | none => false
    pure (expiring_time || expiring_quota, false)

/-- Lines 41-60 of snapshot_builder: the same classification tail, written in
the builder's sequential-assignment style. -/
def classifyTailSB (sTh bTh : ℤ) (total_bytes used_bytes expiry_ms : ℤ) (now : ℚ) :
    Except PyExc (Bool × Bool) := do
  let left_bytes : Option ℤ :=
    if 0 < total_bytes then some (total_bytes - used_bytes) else none
  let expired_quota : Bool :=
    match left_bytes with
    | some l => decide (l ≤ 0)
    | none => false
  let expired_time : Bool ←
    if 0 < expiry_ms then do
      let q ← pyDivFloat expiry_ms 1000
      pure (decide (q ≤ now))
    else pure false
  let is_expired := expired_quota || expired_time
  if is_expired then
    pure (false, true)
  else do
    let expiring_by_time : Bool ←
      if 0 < expiry_ms then do
        let q ← pyDivFloat expiry_ms 1000
        let secs_left := ratSub q now
        pure (decide (0 < secs_left) && decide (secs_left ≤ (sTh : ℚ)))
      else pure false
    let expiring_by_quota : Bool :=
      match left_bytes with
      | some l => decide (0 < total_bytes) && (decide (0 < l) && decide (l ≤ bTh))
      | none => false
    pure (expiring_by_time || expiring_by_quota, false)

/-- Effect of `except (ValueError, TypeError, KeyError): return False, False`:
those three exception classes are converted to the safe default, anything
else (notably OverflowError) propagates. -/
def catchVTK (r : Except PyExc (Bool × Bool)) : Except PyExc (Bool × Bool) :=
  match r with
  | .error .valueError => .ok (false, false)
  | .error .typeError => .ok (false, false)
  | .error .keyError => .ok (false, false)
  | r => r

/-- Body of data_processor.calculate_client_status before its except clause. -/
def calcInnerDP (sTh bTh : ℤ) (c : Client) (now : ℚ) : Except PyExc (Bool × Bool) := do
  let used_bytes ← clientUsedBytes c
  let total_bytes ← clientTotalBytesDP c
  let expiry_ms ← clientExpiryMs c
  classifyTailDP sTh bTh total_bytes used_bytes expiry_ms now

/-- Embedding of data_processor.calculate_client_status (lines 15-104),
parameterised by the two expiring thresholds. -/
def calculate_client_status (sTh bTh : ℤ) (c : Client) (now : ℚ) :
    Except PyExc (Bool × Bool) :=
  catchVTK (calcInnerDP sTh bTh c now)

/-- Body of snapshot_builder's classifier before its except clause. -/
def calcInnerSB (sTh bTh : ℤ) (c : Client) (now : ℚ) : Except PyExc (Bool × Bool) := do
  let used_bytes ← clientUsedBytes c
  let total_bytes ← clientTotalBytesSB c
  let expiry_ms ← clientExpiryMs c
  classifyTailSB sTh bTh total_bytes used_bytes expiry_ms now

/-- Embedding of snapshot_builder's classifier (lines 19-64). -/
def _calc_status_for_client (sTh bTh : ℤ) (c : Client) (now : ℚ) :
    Except PyExc (Bool × Bool) :=
  catchVTK (calcInnerSB sTh bTh c now)

/-- An element of a client-list value: a dict (kept) or anything else
(dropped by the trailing `isinstance(c, dict)` filter). -/
inductive XItem where
  | itemDict (c : Client)
  | itemOther
deriving DecidableEq, Repr

/-- A value stored under one of the inbound's client-bearing keys: a list, a
string (candidate for a JSON parse), a dict with or without a `clients`
entry, or anything else. -/
inductive XVal where
  | xList (items : List XItem)
  | xStr (s : String)
  | xDictClients (v : XVal)
  | xDictNoClients
  | xOther
deriving DecidableEq, Repr

/-- The four inbound keys inspected by the extractor; `none` models an absent
key. -/
structure Inbound where
  clientStats : Option XVal
  settings : Option XVal
  clients : Option XVal
  client_list : Option XVal
deriving DecidableEq, Repr

/-- A raw resource: a dict or anything else. -/
inductive RawResource where
  | rDict (ib : Inbound)
  | rOther
deriving DecidableEq, Repr

/-- Python `[c for c in clients if isinstance(c, dict)]`. -/
def filterDictItems (l : List XItem) : List Client :=
  l.filterMap fun it =>
    match it with
    | .itemDict c => some c
    | .itemOther => none

/-- Embedding of data_processor.extract_clients_from_inbound (lines 106-169),
parameterised by the behaviour of `json.loads` on the settings string (an
error models the caught JSONDecodeError/TypeError). -/
def extract_clients_from_inbound (loads : String → Except Unit XVal) (r : RawResource) :
    List Client :=
  match r with
  | .rOther => []
  | .rDict ib =>
    let clients : List XItem :=
      match ib.clientStats with
      | some (.xList l) => l
      | _ =>
        match ib.settings with
        | some sv =>
          let settingsVal : Except Unit XVal :=
            match sv with
            | .xStr s => loads s
            | v => .ok v
          match settingsVal with
          | .ok (.xDictClients (.xList l)) => l
          | _ => []
        | none =>
          match ib.clients with
          | some (.xList l) => l
          | _ =>
            match ib.client_list with
            | some (.xList l) => l
            | _ => []
    filterDictItems clients

/-- Guard of the clientStats shape, following the amended specification: the
key is present with list type; the match commits even when the list is
empty. -/
def shapeClientStats (ib : Inbound) : Option (List XItem) :=
  match ib.clientStats with
  | some (.xList l) => some l
  | _ => none

/-- Guard of the settings shape, following the amended specification: the key
being present commits the match; a string value goes through json.loads,
and a parse failure, a non-dict value, or a clients entry that is not a
list all commit to the empty result (shadowing any later shape). -/
def shapeSettings (loads : String → Except Unit XVal) (ib : Inbound) :
    Option (List XItem) :=
  match ib.settings with
  | none => none
  | some sv =>
    match (match sv with | .xStr s => loads s | v => .ok v) with
    | .ok (.xDictClients (.xList l)) => some l
    | _ => some []

/-- Guard of the direct clients shape: the key is present with list type. -/
def shapeClients (ib : Inbound) : Option (List XItem) :=
  match ib.clients with
  | some (.xList l) => some l
  | _ => none

/-- Guard of the client_list shape: the key is present with list type. -/
def shapeClientList (ib : Inbound) : Option (List XItem) :=
  match ib.client_list with
  | some (.xList l) => some l
  | _ => none

/-- The amended specification's selection rule: the first shape in the
priority order clientStats, settings, clients, client_list whose guard
matches; none when no shape matches. -/
def firstShapeMatch (loads : String → Except Unit XVal) (ib : Inbound) :
    Option (List XItem) :=
  match shapeClientStats ib with
  | some l => some l
  | none =>
    match shapeSettings loads ib with
    | some l => some l
    | none =>
      match shapeClients ib with
      | some l => some l
      | none => shapeClientList ib

/-- The four per-panel accumulator sets of the snapshot builder. -/
structure PanelSets where
  users : Finset String
  online : Finset String
  expiring : Finset String
  expired : Finset String
deriving DecidableEq

/-- Client id as read by the builder loop: the email field with default "",
skipped when falsy.  Non-string id values are outside the model. -/
def emailOf (c : Client) : Option String :=
  match clientGet c "email" (.vStr "") with
  | .vStr s => if s = "" then none else some s
  | _ => none

/-- One iteration of the builder's per-client loop, snapshot_builder lines
169-184: record the id, record it as online when the fetched online set
contains it, then file it under expired or expiring per the classifier. -/
def processClient (sTh bTh : ℤ) (now : ℚ) (online_clients : Finset String)
    (st : PanelSets) (c : Client) : Except PyExc PanelSets :=
  match emailOf c with
  | none => .ok st
  | some email => do
    let st1 : PanelSets := { st with users := insert email st.users }
    let st2 : PanelSets :=
      if email ∈ online_clients then { st1 with online := insert email st1.online } else st1
    let r ← _calc_status_for_client sTh bTh c now
    if r.2 then
      pure { st2 with expired := insert email st2.expired }
    else if r.1 then
      pure { st2 with expiring := insert email st2.expiring }
    else
      pure st2

/-- The builder's per-panel accumulation over the extracted client lists of
its inbounds (snapshot_builder lines 154-184, restricted to the user and
status sets; the usage totals are not touched by the claims in scope). -/
def buildPanelSets (sTh bTh : ℤ) (now : ℚ) (online_clients : Finset String)
    (clientLists : List (List Client)) : Except PyExc PanelSets :=
  clientLists.foldlM
    (fun st l => l.foldlM (processClient sTh bTh now online_clients) st)
    ⟨∅, ∅, ∅, ∅⟩

/-- Counts and lists of a panel snapshot as assembled in snapshot_builder
lines 201-221. -/
structure PanelListsOut where
  usersCount : ℕ
  onlineCount : ℕ
  expiringCount : ℕ
  expiredCount : ℕ
  usersList : List String
  onlineList : List String
  expiringList : List String
  expiredList : List String
deriving DecidableEq, Repr

/-- The counts and sorted, de-duplicated lists assembled from the accumulated
sets (snapshot_builder lines 201-221: `len(...)` of each set and
`sorted(...)` of each set). -/
def panelOutOfSets (st : PanelSets) : PanelListsOut :=
  { usersCount := st.users.card
    onlineCount := st.online.card
    expiringCount := st.expiring.card
    expiredCount := st.expired.card
    usersList := st.users.sort (· ≤ ·)
    onlineList := st.online.sort (· ≤ ·)
    expiringList := st.expiring.sort (· ≤ ·)
    expiredList := st.expired.sort (· ≤ ·) }

/-- The panel snapshot's counts and lists section as built from the inbound
client lists. -/
def buildPanelSnapshotLists (sTh bTh : ℤ) (now : ℚ) (online_clients : Finset String)
    (clientLists : List (List Client)) : Except PyExc PanelListsOut := do
  let st ← buildPanelSets sTh bTh now online_clients clientLists
  pure (panelOutOfSets st)

/-- The expiring and expired id lists of one panel inside a stored or fresh
snapshot, read with empty-list defaults (change_detection lines 60-67). -/
structure PanelLists where
  expiring : List String
  expired : List String
deriving DecidableEq, Repr

/-- Python `set(current.expiring) - set(previous.expiring)`
(change_detection line 69). -/
def newExpiring (cur prev : PanelLists) : Finset String :=
  cur.expiring.toFinset \ prev.expiring.toFinset

/-- Python `set(current.expired) - set(previous.expired)`
(change_detection line 70). -/
def newExpired (cur prev : PanelLists) : Finset String :=
  cur.expired.toFinset \ prev.expired.toFinset

/-- Iteration order of a Python set: some sequence listing each element
exactly once.  CPython's actual order depends on string hashing and is not
a function of the set's contents. -/
def IsPyEnum (s : Finset String) (l : List String) : Prop :=
  l.Nodup ∧ l.toFinset = s

instance (s : Finset String) (l : List String) : Decidable (IsPyEnum s l) :=
  decidable_of_iff (l.Nodup ∧ l.toFinset = s) Iff.rfl

/-- Previous-cycle panel lookup: the stored snapshot is keyed by the decimal
string of the panel id, and a missing panel defaults to empty lists
(change_detection lines 64-67). -/
def prevPanelLookup (last : List (String × PanelLists)) (pid : ℤ) : PanelLists :=
  match last.lookup (toString pid) with
  | some p => p
  | none => ⟨[], []⟩

/-- Per-panel newly-expiring and newly-expired sets for one cycle, in
current-snapshot panel order (change_detection lines 56-70). -/
def cyclePanelChanges (current : List (ℤ × PanelLists)) (last : List (String × PanelLists)) :
    List (ℤ × Finset String × Finset String) :=
  current.map fun p =>
    (p.1, newExpiring p.2 (prevPanelLookup last p.1), newExpired p.2 (prevPanelLookup last p.1))

/-- Pure core of one user's change-detection cycle (change_detection lines
41-104): an empty fresh snapshot is skipped entirely; a missing or empty
stored snapshot is saved as the baseline with no events; otherwise the
per-panel change sets are produced and the fresh snapshot is saved.
Returns the change sets and the snapshot written back (none if nothing is
saved). -/
def checkUserCycle (current : List (ℤ × PanelLists))
    (last : Option (List (String × PanelLists))) :
    List (ℤ × Finset String × Finset String) × Option (List (ℤ × PanelLists)) :=
  if current = [] then ([], none)
  else
    match last with
    | none => ([], some current)
    | some l =>
      if l = [] then ([], some current)
      else (cyclePanelChanges current l, some current)

/-- A Python dict key as it occurs in a viewer snapshot: the panel ids are
ints, everything below is keyed by strings. -/
inductive PyKey where
  | kInt (n : ℤ)
  | kStr (s : String)
deriving DecidableEq, Repr

/-- Leaf values inside the nested dicts of a panel snapshot. -/
inductive FlatVal where
  | fvNull
  | fvBool (b : Bool)
  | fvInt (n : ℤ)
  | fvStr (s : String)
  | fvStrList (l : List String)
deriving DecidableEq, Repr

/-- A top-level field of a panel snapshot: panel_name is a string, counts,
usage and lists are flat dicts. -/
inductive FieldJson where
  | fNull
  | fBool (b : Bool)
  | fInt (n : ℤ)
  | fStr (s : String)
  | fStrList (l : List String)
  | fDict (entries : List (PyKey × FlatVal))
deriving DecidableEq, Repr

/-- A panel snapshot as a JSON-compatible dict. -/
abbrev PanelJson := List (PyKey × FieldJson)

/-- A viewer snapshot: panel id to panel snapshot. -/
abbrev SnapshotJson := List (PyKey × PanelJson)

/-- Key as serialised by json.dumps: int keys become their decimal string. -/
def keyStr : PyKey → String
  | .kInt n => toString n
  | .kStr s => s

/-- Insertion into a parsed JSON object under Python dict semantics: an
existing key keeps its position and takes the new value. -/
def jsonInsert {α : Type} (acc : List (String × α)) (k : String) (v : α) :
    List (String × α) :=
  if acc.any (fun p => p.1 == k) then
    acc.map (fun p => if p.1 == k then (k, v) else p)
  else acc ++ [(k, v)]

/-- Effect of json.dumps followed by json.loads on one dict level: keys become
their decimal strings, values are transformed recursively, and duplicate
serialised keys collapse with the last value winning. -/
def jsonObjRT {α : Type} (f : α → α) (kvs : List (PyKey × α)) : List (PyKey × α) :=
  (kvs.foldl (fun acc p => jsonInsert acc (keyStr p.1) (f p.2)) []).map
    (fun p => (PyKey.kStr p.1, p.2))

/-- Round trip of one snapshot field through JSON. -/
def fieldRT : FieldJson → FieldJson
  | .fDict entries => .fDict (jsonObjRT id entries)
  | v => v

/-- Round trip of one panel snapshot through JSON. -/
def panelRT (p : PanelJson) : PanelJson := jsonObjRT fieldRT p

/-- Embedding of ReportRepository.save_snapshot followed by
get_last_snapshot for the same viewer: the stored row holds
`json.dumps(snapshot)` and the read parses it back, so a get after a put
returns `json.loads(json.dumps(s))`. -/
def storeRoundTrip (s : SnapshotJson) : SnapshotJson := jsonObjRT panelRT s

/-- Test for a string key. -/
def isStrKey : PyKey → Bool
  | .kStr _ => true
  | .kInt _ => false

/-- Keys of one dict level are strings and distinct. -/
def goodKVs {α : Type} (kvs : List (PyKey × α)) : Prop :=
  (∀ p ∈ kvs, isStrKey p.1 = true) ∧ (kvs.map fun p => keyStr p.1).Nodup

/-- A field whose own dict level, if any, has string and distinct keys. -/
def goodField : FieldJson → Prop
  | .fDict entries => goodKVs entries
  | _ => True

/-- A panel snapshot whose dict levels all have string, distinct keys. -/
def goodPanel (p : PanelJson) : Prop := goodKVs p ∧ ∀ q ∈ p, goodField q.2

/-- A viewer snapshot whose dict levels all have string, distinct keys. -/
def goodSnapshot (s : SnapshotJson) : Prop := goodKVs s ∧ ∀ q ∈ s, goodPanel q.2

instance {α : Type} (kvs : List (PyKey × α)) : Decidable (goodKVs kvs) :=
  inferInstanceAs
    (Decidable ((∀ p ∈ kvs, isStrKey p.1 = true) ∧
      (kvs.map fun p : PyKey × α => keyStr p.1).Nodup))

instance : (v : FieldJson) → Decidable (goodField v)
  | .fNull => inferInstanceAs (Decidable True)
  | .fBool _ => inferInstanceAs (Decidable True)
  | .fInt _ => inferInstanceAs (Decidable True)
  | .fStr _ => inferInstanceAs (Decidable True)
  | .fStrList _ => inferInstanceAs (Decidable True)
  | .fDict entries => inferInstanceAs (Decidable (goodKVs entries))

instance (p : PanelJson) : Decidable (goodPanel p) :=
  inferInstanceAs (Decidable (goodKVs p ∧ ∀ q ∈ p, goodField q.2))

instance (s : SnapshotJson) : Decidable (goodSnapshot s) :=
  inferInstanceAs (Decidable (goodKVs s ∧ ∀ q ∈ s, goodPanel q.2))

/-- Helper: in a duplicate-free list every member occurs exactly once. -/
theorem count_of_nodup {l : List String} (hd : l.Nodup) (x : String) :
    l.count x = if x ∈ l then 1 else 0 := by
  split
  · exact List.count_eq_one_of_mem hd (by assumption)
  · exact List.count_eq_zero.mpr (by assumption)

/-- C1: a change-detection cycle for a viewer with no previously stored
snapshot saves the freshly built snapshot as the baseline and emits no
change events, regardless of the contents of the expiring and expired lists
(the hypothesis restricts to a non-empty fresh snapshot, since an empty
build is skipped before the baseline check is ever reached). -/
theorem C1_first_cycle_baseline (current : List (ℤ × PanelLists)) (h : current ≠ []) :
    checkUserCycle current none = ([], some current) := by
  unfold checkUserCycle
  simp [h]

theorem C1_first_cycle_baseline_witness :
    [((1 : ℤ), (⟨["a", "b"], ["c"]⟩ : PanelLists))] ≠ [] ∧
    checkUserCycle [(1, ⟨["a", "b"], ["c"]⟩)] none =
      ([], some [(1, ⟨["a", "b"], ["c"]⟩)]) :=
  ⟨by decide, C1_first_cycle_baseline _ (by decide)⟩

/-- C2: however the Python set difference is enumerated, the change detector
emits exactly one enteredExpiring event per id in
`current.expiring - previous.expiring` (and one enteredExpired event per id
in the expired difference); an id absent from the current list, in
particular one that disappeared since the previous snapshot, produces no
event. -/
theorem C2_set_difference_events (cur prev : PanelLists) (l1 l2 : List String)
    (h1 : IsPyEnum (newExpiring cur prev) l1) (h2 : IsPyEnum (newExpired cur prev) l2) :
    (∀ x, l1.count x = if x ∈ cur.expiring ∧ x ∉ prev.expiring then 1 else 0) ∧
    (∀ x, l2.count x = if x ∈ cur.expired ∧ x ∉ prev.expired then 1 else 0) := by
  obtain ⟨hn1, hf1⟩ := h1
  obtain ⟨hn2, hf2⟩ := h2
  constructor
  · intro x
    have hx : x ∈ l1 ↔ x ∈ cur.expiring ∧ x ∉ prev.expiring := by
      rw [← List.mem_toFinset, hf1]
      simp [newExpiring, Finset.mem_sdiff, List.mem_toFinset]
    rw [count_of_nodup hn1]
    by_cases hc : x ∈ cur.expiring ∧ x ∉ prev.expiring
    · rw [if_pos hc, if_pos (hx.mpr hc)]
    · rw [if_neg hc, if_neg (fun hm => hc (hx.mp hm))]
  · intro x
    have hx : x ∈ l2 ↔ x ∈ cur.expired ∧ x ∉ prev.expired := by
      rw [← List.mem_toFinset, hf2]
      simp [newExpired, Finset.mem_sdiff, List.mem_toFinset]
    rw [count_of_nodup hn2]
    by_cases hc : x ∈ cur.expired ∧ x ∉ prev.expired
    · rw [if_pos hc, if_pos (hx.mpr hc)]
    · rw [if_neg hc, if_neg (fun hm => hc (hx.mp hm))]

theorem C2_set_difference_events_witness :
    (["C"] : List String).count "C" = 1 ∧
    (["C"] : List String).count "A" = 0 ∧
    (["C"] : List String).count "B" = 0 := by
  have h := (C2_set_difference_events ⟨["B", "C"], []⟩ ⟨["A", "B"], []⟩ ["C"] []
    (by decide) (by decide)).1
  refine ⟨?_, ?_, ?_⟩
  · have hc := h "C"
    rw [if_pos (by decide : "C" ∈ ["B", "C"] ∧ "C" ∉ ["A", "B"])] at hc
    exact hc
  · have ha := h "A"
    rw [if_neg (by decide : ¬ ("A" ∈ ["B", "C"] ∧ "A" ∉ ["A", "B"]))] at ha
    exact ha
  · have hb := h "B"
    rw [if_neg (by decide : ¬ ("B" ∈ ["B", "C"] ∧ "B" ∉ ["A", "B"]))] at hb
    exact hb

/-- C8 counterexample: the code iterates the in-memory set difference
directly, so an enumeration that is not in sorted id order is a possible
emission order; sorted order is not guaranteed. -/
theorem C8_counterexample :
    IsPyEnum (newExpiring ⟨["a", "b"], []⟩ ⟨[], []⟩) ["b", "a"] ∧
    ¬ List.Chain' (· ≤ ·) ["b", "a"] := by
  refine ⟨by decide, ?_⟩
  simp only [List.chain'_cons, List.chain'_singleton, and_true]
  rw [String.le_iff_toList_le]
  decide

/-- C8 amended: every possible emission order lists each newly-expiring id
exactly once, hence is a permutation of the sorted id order, but the sorted
order itself is not what the code guarantees. -/
theorem C8_emission_order_amended (cur prev : PanelLists) (l1 l2 : List String)
    (h1 : IsPyEnum (newExpiring cur prev) l1) (h2 : IsPyEnum (newExpired cur prev) l2) :
    l1.Perm ((newExpiring cur prev).sort (· ≤ ·)) ∧
    l2.Perm ((newExpired cur prev).sort (· ≤ ·)) := by
  obtain ⟨hn1, hf1⟩ := h1
  obtain ⟨hn2, hf2⟩ := h2
  constructor
  · exact List.perm_of_nodup_nodup_toFinset_eq hn1 (Finset.sort_nodup _ _)
      (by rw [hf1, Finset.sort_toFinset])
  · exact List.perm_of_nodup_nodup_toFinset_eq hn2 (Finset.sort_nodup _ _)
      (by rw [hf2, Finset.sort_toFinset])

theorem C8_emission_order_amended_witness :
    (["a"] : List String).Perm
      ((newExpiring ⟨["a", "b"], []⟩ ⟨["b"], []⟩).sort (· ≤ ·)) ∧
    ([] : List String).Perm
      ((newExpired ⟨["a", "b"], []⟩ ⟨["b"], []⟩).sort (· ≤ ·)) :=
  C8_emission_order_amended ⟨["a", "b"], []⟩ ⟨["b"], []⟩ ["a"] []
    (by decide) (by decide)

/-- C3 counterexample: a client whose quota is exhausted (totalGB 1 GB, used
1 GiB, remaining 0) but whose expiry-time field holds 10^400 makes the
classifier raise OverflowError instead of returning expired, because
`expiry_ms / 1000.0` converts the int to a float eagerly and OverflowError
is not among the caught exception classes. -/
theorem C3_counterexample :
    clientTotalBytesDP
      [("totalGB", .vInt 1), ("up", .vInt 1073741824), ("expiryTime", .vInt (10 ^ 400))] =
      .ok 1073741824 ∧
    clientUsedBytes
      [("totalGB", .vInt 1), ("up", .vInt 1073741824), ("expiryTime", .vInt (10 ^ 400))] =
      .ok 1073741824 ∧
    calculate_client_status 86400 1073741824
      [("totalGB", .vInt 1), ("up", .vInt 1073741824), ("expiryTime", .vInt (10 ^ 400))] 0 =
      .error .overflowError ∧
    calculate_client_status 86400 1073741824
      [("totalGB", .vInt 1), ("up", .vInt 1073741824), ("expiryTime", .vInt (10 ^ 400))] 0 ≠
      .ok (false, true) := by
  refine ⟨by decide, by decide, by decide, by decide⟩

/-- C3 amended: for every client whose computed quota is positive with
remaining bytes at most zero, and whose expiry value is small enough to
convert to a float, classification returns expired irrespective of the
expiry value. -/
theorem C3_quota_expired_amended (sTh bTh : ℤ) (c : Client) (now : ℚ) (t u e : ℤ)
    (ht : clientTotalBytesDP c = .ok t) (htpos : 0 < t)
    (hu : clientUsedBytes c = .ok u) (hleft : t - u ≤ 0)
    (he : clientExpiryMs c = .ok e) (hrange : e.natAbs < floatOverflowBound) :
    calculate_client_status sTh bTh c now = .ok (false, true) := by
  have hinner : calcInnerDP sTh bTh c now = classifyTailDP sTh bTh t u e now := by
    unfold calcInnerDP
    rw [hu, ht, he]
    rfl
  unfold calculate_client_status
  rw [hinner]
  have hdiv : pyDivFloat e 1000 = .ok (ratDivQ (e : ℚ) 1000) := by
    unfold pyDivFloat pyFloatOfInt
    rw [if_pos hrange]
    rfl
  by_cases hepos : 0 < e
  · unfold classifyTailDP
    simp [htpos, hepos, hdiv, hleft, catchVTK, bind, Except.bind, pure, Except.pure]
  · unfold classifyTailDP
    simp [htpos, hepos, hleft, catchVTK, bind, Except.bind, pure, Except.pure]

theorem C3_quota_expired_amended_witness :
    calculate_client_status 86400 1073741824
      [("totalGB", .vInt 1), ("up", .vInt 1073741824)] 0 = .ok (false, true) :=
  C3_quota_expired_amended 86400 1073741824
    [("totalGB", .vInt 1), ("up", .vInt 1073741824)] 0 1073741824 1073741824 0
    (by decide) (by decide) (by decide) (by decide) (by decide) (by decide)

/-- C4: the classifier is not exception-free on arbitrary client dicts: an
integral expiry value of 10^400 (too large for a float) makes
`expiry_ms / 1000.0` raise OverflowError, which the except clause (covering
only ValueError, TypeError and KeyError) does not catch, contradicting the
never-fail contract. -/
theorem C4_overflow_escape :
    calculate_client_status 86400 1073741824 [("expiryTime", .vInt (10 ^ 400))] 0 =
      .error .overflowError := by decide

/-- C10 counterexample: the data-processor classifier honours a positive
`limit` field as a GB quota fallback, the snapshot-builder classifier does
not, so a client with limit 1 and used bytes 1 GiB is expired for the
former and normal for the latter. -/
theorem C10_counterexample :
    calculate_client_status 86400 1073741824
      [("limit", .vInt 1), ("up", .vInt 1073741824)] 0 = .ok (false, true) ∧
    _calc_status_for_client 86400 1073741824
      [("limit", .vInt 1), ("up", .vInt 1073741824)] 0 = .ok (false, false) ∧
    calculate_client_status 86400 1073741824
      [("limit", .vInt 1), ("up", .vInt 1073741824)] 0 ≠
      _calc_status_for_client 86400 1073741824
        [("limit", .vInt 1), ("up", .vInt 1073741824)] 0 := by
  refine ⟨by decide, by decide, by decide⟩

/-- Helper: the two classification tails are the same function. -/
theorem classifyTail_eq : @classifyTailDP = @classifyTailSB := rfl

/-- Helper: the two quota computations agree whenever the `limit` fallback
coerces to a non-positive float. -/
theorem clientTotalBytes_eq (c : Client) (ql : ℚ)
    (hl : pyFloat (pyOr0 (clientGet c "limit" (.vInt 0))) = .ok ql) (hql : ¬ 0 < ql) :
    clientTotalBytesDP c = clientTotalBytesSB c := by
  unfold clientTotalBytesDP clientTotalBytesSB
  cases h1 : pyFloat (pyOr0 (pyOr0 (clientGet c "totalGB" (.vInt 0)))) with
  | error e => simp only [h1, bind, Except.bind]
  | ok tg =>
    simp only [h1, bind, Except.bind]
    split
    · rfl
    · cases h2 : pyFloat (pyOr0 (pyOr0 (clientGet c "total" (.vInt 0)))) with
      | error e => simp only [h2, bind, Except.bind]
      | ok tb =>
        simp only [h2, bind, Except.bind]
        split
        · rfl
        · rw [hl]
          simp only [bind, Except.bind]
          rw [if_neg hql]

/-- C10 amended: the two classifier implementations return the same pair for
every client whose `limit` field is absent, falsy, or coerces to a
non-positive float — i.e. whenever the data processor's extra `limit`
fallback contributes nothing.  (The counterexample shows they genuinely
differ once the fallback engages.) -/
theorem C10_agreement_amended (sTh bTh : ℤ) (c : Client) (now : ℚ) (ql : ℚ)
    (hl : pyFloat (pyOr0 (clientGet c "limit" (.vInt 0))) = .ok ql) (hql : ¬ 0 < ql) :
    calculate_client_status sTh bTh c now = _calc_status_for_client sTh bTh c now := by
  unfold calculate_client_status _calc_status_for_client calcInnerDP calcInnerSB
  simp only [clientTotalBytes_eq c ql hl hql, classifyTail_eq]

theorem C10_agreement_amended_witness :
    calculate_client_status 86400 1073741824 [("totalGB", .vInt 2)] 5 =
      _calc_status_for_client 86400 1073741824 [("totalGB", .vInt 2)] 5 :=
  C10_agreement_amended 86400 1073741824 [("totalGB", .vInt 2)] 5 0 (by decide) (by decide)

/-- C5 counterexample: an inbound whose clientStats key holds an empty list
while its clients key holds a non-empty list yields the empty result — the
extractor keeps the first shape whose guard matches, not the first
non-empty match. -/
theorem C5_counterexample :
    extract_clients_from_inbound (fun _ => .error ())
      (.rDict ⟨some (.xList []), none,
        some (.xList [.itemDict [("email", .vStr "x")]]), none⟩) = [] ∧
    ([] : List Client) ≠ [[("email", .vStr "x")]] := by
  refine ⟨by decide, by decide⟩

/-- C5 amended: on every dict resource the extractor returns exactly the
dict elements of the first shape in the priority order clientStats,
settings.clients (including the JSON-string parse step, with a parse
failure or ill-shaped value committing to the empty result and shadowing
the later shapes), clients, client_list whose guard matches — even when
that result is empty; a resource that is not a dict or matches no shape
yields the empty list, and the extraction is total, so no input raises. -/
theorem C5_first_shape_amended (loads : String → Except Unit XVal) (ib : Inbound) :
    extract_clients_from_inbound loads (.rDict ib) =
      filterDictItems ((firstShapeMatch loads ib).getD []) ∧
    extract_clients_from_inbound loads .rOther = [] := by
  obtain ⟨cs, se, cl, cll⟩ := ib
  refine ⟨?_, rfl⟩
  rcases cs with _ | (la | sa | wa | _ | _) <;> try rfl
  all_goals
    rcases se with _ | (lb | sb | (lc | _ | _ | _ | _) | _ | _) <;> try rfl
  all_goals
    first
      | (rcases cl with _ | (ld | _ | _ | _ | _) <;>
          rcases cll with _ | (le | _ | _ | _ | _) <;> rfl)
      | (rcases hls : loads sb with _ | (lf | _ | (lg | _ | _ | _ | _) | _ | _) <;>
          (simp only [extract_clients_from_inbound, firstShapeMatch, shapeClientStats,
            shapeSettings, shapeClients, shapeClientList, hls]; try rfl))

/-- Helper: one builder loop iteration only ever inserts the client's id into
the users set, and inserts it into the online set exactly when the fetched
online set contains it; the classification outcome touches only the
expiring and expired sets. -/
theorem processClient_sets (sTh bTh : ℤ) (now : ℚ) (oc : Finset String)
    (st st' : PanelSets) (c : Client)
    (h : processClient sTh bTh now oc st c = .ok st') :
    (st'.users = match emailOf c with
      | none => st.users
      | some em => insert em st.users) ∧
    (st'.online = match emailOf c with
      | none => st.online
      | some em => if em ∈ oc then insert em st.online else st.online) := by
  unfold processClient at h
  cases he : emailOf c with
  | none =>
    rw [he] at h
    cases h
    exact ⟨rfl, rfl⟩
  | some em =>
    rw [he] at h
    cases hr : _calc_status_for_client sTh bTh c now with
    | error e =>
      rw [hr] at h
      simp only [bind, Except.bind] at h
      exact Except.noConfusion h
    | ok r =>
      rw [hr] at h
      simp only [bind, Except.bind, pure, Except.pure] at h
      split at h <;> [skip; split at h] <;>
        (rw [Except.ok.injEq] at h; subst h; by_cases hin : em ∈ oc <;>
          simp [hin])

/-- Helper: the per-client fold over one inbound's client list accumulates
exactly the non-falsy ids into users, and their online members into
online. -/
theorem foldClients_sets (sTh bTh : ℤ) (now : ℚ) (oc : Finset String) :
    ∀ (l : List Client) (st st' : PanelSets),
      l.foldlM (processClient sTh bTh now oc) st = .ok st' →
      st'.users = st.users ∪ (l.filterMap emailOf).toFinset ∧
      st'.online = st.online ∪ ((l.filterMap emailOf).toFinset.filter (· ∈ oc)) := by
  intro l
  induction l with
  | nil =>
    intro st st' h
    simp only [List.foldlM_nil, pure, Except.pure, Except.ok.injEq] at h
    subst h
    simp
  | cons c cs ih =>
    intro st st' h
    rw [List.foldlM_cons] at h
    cases h1 : processClient sTh bTh now oc st c with
    | error e =>
      rw [h1] at h
      simp only [bind, Except.bind] at h
      exact Except.noConfusion h
    | ok st1 =>
      rw [h1] at h
      simp only [bind, Except.bind] at h
      obtain ⟨hu, ho⟩ := ih st1 st' h
      obtain ⟨hu1, ho1⟩ := processClient_sets sTh bTh now oc st st1 c h1
      cases he : emailOf c with
      | none =>
        rw [he] at hu1 ho1
        rw [hu, hu1, ho, ho1]
        simp [he]
      | some em =>
        rw [he] at hu1 ho1
        rw [hu, hu1, ho, ho1]
        constructor
        · simp [he, List.filterMap_cons, Finset.insert_union, Finset.union_insert]
        · by_cases hin : em ∈ oc
          · simp [he, hin, List.filterMap_cons, Finset.filter_insert,
              Finset.insert_union, Finset.union_insert]
          · simp [he, hin, List.filterMap_cons, Finset.filter_insert]

/-- Helper: characterisation of the users and online sets accumulated by the
whole nested builder loop. -/
theorem buildPanelSets_sets (sTh bTh : ℤ) (now : ℚ) (oc : Finset String) :
    ∀ (lists : List (List Client)) (st st' : PanelSets),
      lists.foldlM (fun st l => l.foldlM (processClient sTh bTh now oc) st) st = .ok st' →
      st'.users = st.users ∪ (lists.flatten.filterMap emailOf).toFinset ∧
      st'.online = st.online ∪
        ((lists.flatten.filterMap emailOf).toFinset.filter (· ∈ oc)) := by
  intro lists
  induction lists with
  | nil =>
    intro st st' h
    simp only [List.foldlM_nil, pure, Except.pure, Except.ok.injEq] at h
    subst h
    simp
  | cons l ls ih =>
    intro st st' h
    rw [List.foldlM_cons] at h
    cases h1 : l.foldlM (processClient sTh bTh now oc) st with
    | error e =>
      rw [h1] at h
      simp only [bind, Except.bind] at h
      exact Except.noConfusion h
    | ok st1 =>
      rw [h1] at h
      simp only [bind, Except.bind] at h
      obtain ⟨hu, ho⟩ := ih st1 st' h
      obtain ⟨hu1, ho1⟩ := foldClients_sets sTh bTh now oc l st st1 h1
      rw [hu, hu1, ho, ho1]
      constructor
      · simp [List.flatten_cons, List.filterMap_append, Finset.union_assoc]
      · simp [List.flatten_cons, List.filterMap_append, Finset.filter_union,
          Finset.union_assoc]

/-- C6 counterexample: a client with enabled = False whose id is in the
fetched online set is still added to the panel's online list — the builder
checks only membership in the online set and never reads the enabled
flag. -/
theorem C6_counterexample :
    buildPanelSnapshotLists 86400 1073741824 0 {"a"}
      [[[("email", .vStr "a"), ("enabled", .vBool false)]]] =
      .ok ⟨1, 1, 0, 0, ["a"], ["a"], [], []⟩ ∧
    clientGet [("email", .vStr "a"), ("enabled", .vBool false)] "enabled" .vNone =
      .vBool false := by
  constructor
  · have h : buildPanelSets 86400 1073741824 0 {"a"}
        [[[("email", .vStr "a"), ("enabled", .vBool false)]]] =
        .ok ⟨{"a"}, {"a"}, ∅, ∅⟩ := by decide
    unfold buildPanelSnapshotLists
    rw [h]
    simp [panelOutOfSets, bind, Except.bind, pure, Except.pure]
  · decide

/-- C6 amended: an id is on the panel's online list exactly when it is a
recorded client id and a member of the fetched online-identifier set; the
enabled flag plays no role. -/
theorem C6_online_membership_amended (sTh bTh : ℤ) (now : ℚ) (oc : Finset String)
    (clientLists : List (List Client)) (st : PanelSets) (e : String)
    (h : buildPanelSets sTh bTh now oc clientLists = .ok st) :
    e ∈ (panelOutOfSets st).onlineList ↔
      e ∈ (panelOutOfSets st).usersList ∧ e ∈ oc := by
  unfold buildPanelSets at h
  obtain ⟨hu, ho⟩ := buildPanelSets_sets sTh bTh now oc clientLists ⟨∅, ∅, ∅, ∅⟩ st h
  simp only [panelOutOfSets, Finset.mem_sort]
  rw [hu, ho]
  simp [Finset.mem_filter]

theorem C6_online_membership_amended_witness :
    "a" ∈ (panelOutOfSets ⟨{"a"}, {"a"}, ∅, ∅⟩).onlineList ↔
      "a" ∈ (panelOutOfSets ⟨{"a"}, {"a"}, ∅, ∅⟩).usersList ∧ "a" ∈ ({"a"} : Finset String) :=
  C6_online_membership_amended 86400 1073741824 0 {"a"}
    [[[("email", .vStr "a"), ("enabled", .vBool false)]]] ⟨{"a"}, {"a"}, ∅, ∅⟩ "a"
    (by decide)

/-- C7 counterexample: the same id listed under two resources, one record
quota-expired and the other merely near its quota, lands on both the
expiring and the expired list — expired-takes-precedence holds only within
a single record, so the two lists are not mutually exclusive. -/
theorem C7_counterexample :
    buildPanelSnapshotLists 86400 1073741824 0 ∅
      [[[("email", .vStr "a"), ("totalGB", .vInt 1), ("up", .vInt 1073741824)],
        [("email", .vStr "a"), ("totalGB", .vInt 1), ("up", .vInt 1073741819)]]] =
      .ok ⟨1, 0, 1, 1, ["a"], [], ["a"], ["a"]⟩ := by
  have h : buildPanelSets 86400 1073741824 0 ∅
      [[[("email", .vStr "a"), ("totalGB", .vInt 1), ("up", .vInt 1073741824)],
        [("email", .vStr "a"), ("totalGB", .vInt 1), ("up", .vInt 1073741819)]]] =
      .ok ⟨{"a"}, ∅, {"a"}, {"a"}⟩ := by decide
  unfold buildPanelSnapshotLists
  rw [h]
  simp [panelOutOfSets, bind, Except.bind, pure, Except.pure]

/-- C7 amended: each of the four panel lists is sorted and duplicate-free,
and the users count is the number of distinct non-falsy client ids across
all resources, however often an id recurs; mutual exclusivity of expiring
and expired, however, holds only per record (see the counterexample). -/
theorem C7_dedup_count_amended (sTh bTh : ℤ) (now : ℚ) (oc : Finset String)
    (clientLists : List (List Client)) (st : PanelSets)
    (h : buildPanelSets sTh bTh now oc clientLists = .ok st) :
    ((panelOutOfSets st).usersList.Nodup ∧ (panelOutOfSets st).onlineList.Nodup ∧
      (panelOutOfSets st).expiringList.Nodup ∧ (panelOutOfSets st).expiredList.Nodup) ∧
    (List.Sorted (· ≤ ·) (panelOutOfSets st).usersList ∧
      List.Sorted (· ≤ ·) (panelOutOfSets st).onlineList ∧
      List.Sorted (· ≤ ·) (panelOutOfSets st).expiringList ∧
      List.Sorted (· ≤ ·) (panelOutOfSets st).expiredList) ∧
    (panelOutOfSets st).usersCount =
      ((clientLists.flatten).filterMap emailOf).toFinset.card := by
  refine ⟨⟨Finset.sort_nodup _ _, Finset.sort_nodup _ _,
      Finset.sort_nodup _ _, Finset.sort_nodup _ _⟩,
    ⟨Finset.sort_sorted _ _, Finset.sort_sorted _ _,
      Finset.sort_sorted _ _, Finset.sort_sorted _ _⟩, ?_⟩
  unfold buildPanelSets at h
  obtain ⟨hu, _⟩ := buildPanelSets_sets sTh bTh now oc clientLists ⟨∅, ∅, ∅, ∅⟩ st h
  simp only [panelOutOfSets]
  rw [hu]
  simp

theorem C7_dedup_count_amended_witness :
    ((panelOutOfSets ⟨{"a"}, ∅, {"a"}, {"a"}⟩).usersList.Nodup ∧
      (panelOutOfSets ⟨{"a"}, ∅, {"a"}, {"a"}⟩).onlineList.Nodup ∧
      (panelOutOfSets ⟨{"a"}, ∅, {"a"}, {"a"}⟩).expiringList.Nodup ∧
      (panelOutOfSets ⟨{"a"}, ∅, {"a"}, {"a"}⟩).expiredList.Nodup) ∧
    (List.Sorted (· ≤ ·) (panelOutOfSets ⟨{"a"}, ∅, {"a"}, {"a"}⟩).usersList ∧
      List.Sorted (· ≤ ·) (panelOutOfSets ⟨{"a"}, ∅, {"a"}, {"a"}⟩).onlineList ∧
      List.Sorted (· ≤ ·) (panelOutOfSets ⟨{"a"}, ∅, {"a"}, {"a"}⟩).expiringList ∧
      List.Sorted (· ≤ ·) (panelOutOfSets ⟨{"a"}, ∅, {"a"}, {"a"}⟩).expiredList) ∧
    (panelOutOfSets ⟨{"a"}, ∅, {"a"}, {"a"}⟩).usersCount =
      ((([[[("email", .vStr "a"), ("totalGB", .vInt 1), ("up", .vInt 1073741824)],
          [("email", .vStr "a"), ("totalGB", .vInt 1), ("up", .vInt 1073741819)]]]
            : List (List Client)).flatten).filterMap emailOf).toFinset.card :=
  C7_dedup_count_amended 86400 1073741824 0 ∅
    [[[("email", .vStr "a"), ("totalGB", .vInt 1), ("up", .vInt 1073741824)],
      [("email", .vStr "a"), ("totalGB", .vInt 1), ("up", .vInt 1073741819)]]]
    ⟨{"a"}, ∅, {"a"}, {"a"}⟩ (by decide)

/-- C9 counterexample: a snapshot keyed by the integer panel id 1 comes back
from the store keyed by the string "1" — json.dumps stringifies int dict
keys, so put-then-get is not the identity on snapshots as built (whose
panel keys are ints). -/
theorem C9_counterexample :
    storeRoundTrip [(.kInt 1, [(.kStr "panel_name", .fStr "p"),
      (.kStr "counts", .fDict [(.kStr "users", .fvInt 1)])])] =
      [(.kStr "1", [(.kStr "panel_name", .fStr "p"),
        (.kStr "counts", .fDict [(.kStr "users", .fvInt 1)])])] ∧
    storeRoundTrip [(.kInt 1, [(.kStr "panel_name", .fStr "p"),
      (.kStr "counts", .fDict [(.kStr "users", .fvInt 1)])])] ≠
      [(.kInt 1, [(.kStr "panel_name", .fStr "p"),
        (.kStr "counts", .fDict [(.kStr "users", .fvInt 1)])])] := by
  refine ⟨by decide, by decide⟩

/-- Helper: inserting a fresh key appends it. -/
theorem jsonInsert_fresh {α : Type} (acc : List (String × α)) (k : String) (v : α)
    (h : ∀ p ∈ acc, p.1 ≠ k) : jsonInsert acc k v = acc ++ [(k, v)] := by
  unfold jsonInsert
  rw [if_neg]
  intro hc
  rw [List.any_eq_true] at hc
  obtain ⟨p, hp, hpk⟩ := hc
  exact h p hp (by simpa using hpk)

/-- Helper: folding fresh, pairwise-distinct keys into a parsed object
appends them in order. -/
theorem jsonFold_append {α : Type} (f : α → α) :
    ∀ (kvs : List (PyKey × α)) (acc : List (String × α)),
      ((kvs.map fun p => keyStr p.1).Nodup) →
      (∀ p ∈ kvs, ∀ q ∈ acc, q.1 ≠ keyStr p.1) →
      kvs.foldl (fun a p => jsonInsert a (keyStr p.1) (f p.2)) acc =
        acc ++ kvs.map (fun p => (keyStr p.1, f p.2)) := by
  intro kvs
  induction kvs with
  | nil => intro acc _ _; simp
  | cons q rest ih =>
    intro acc hnd hfresh
    simp only [List.foldl_cons]
    rw [jsonInsert_fresh acc (keyStr q.1) (f q.2)
      (fun p hp => hfresh q (by simp) p hp)]
    rw [ih (acc ++ [(keyStr q.1, f q.2)])
      (by simpa using hnd.of_cons)
      ?fresh]
    · simp
    case fresh =>
      intro p hp r hr
      rcases List.mem_append.mp hr with hr1 | hr2
      · exact hfresh p (List.mem_cons_of_mem q hp) r hr1
      · have : r = (keyStr q.1, f q.2) := by simpa using hr2
        subst this
        have hq : keyStr q.1 ∉ (rest.map fun p => keyStr p.1) :=
          (List.nodup_cons.mp hnd).1
        intro hk
        have hk2 : keyStr q.1 = keyStr p.1 := hk
        rw [hk2] at hq
        exact hq (List.mem_map_of_mem (fun p => keyStr p.1) hp)

/-- Helper: a dumps-then-loads pass over one dict level is the identity when
its keys are strings and distinct and the value transform fixes its
values. -/
theorem jsonObjRT_id {α : Type} (f : α → α) (kvs : List (PyKey × α))
    (hk : goodKVs kvs) (hv : ∀ p ∈ kvs, f p.2 = p.2) : jsonObjRT f kvs = kvs := by
  obtain ⟨hstr, hnd⟩ := hk
  unfold jsonObjRT
  rw [jsonFold_append f kvs [] hnd (by simp)]
  simp only [List.nil_append, List.map_map]
  have hpt : ∀ p ∈ kvs, ((PyKey.kStr (keyStr p.1), f p.2) : PyKey × α) = p := by
    intro p hp
    have hs := hstr p hp
    obtain ⟨k, v⟩ := p
    cases k with
    | kInt n => simp [isStrKey] at hs
    | kStr s => simp [keyStr, hv ⟨.kStr s, v⟩ hp]
  calc (kvs.map fun p => (PyKey.kStr (keyStr p.1), f p.2))
      = kvs.map id := List.map_congr_left hpt
    _ = kvs := List.map_id kvs

/-- Helper: the round trip fixes a well-keyed snapshot field. -/
theorem fieldRT_id (v : FieldJson) (h : goodField v) : fieldRT v = v := by
  cases v with
  | fDict entries => exact congrArg FieldJson.fDict (jsonObjRT_id id entries h (by simp))
  | fNull => rfl
  | fBool b => rfl
  | fInt n => rfl
  | fStr s => rfl
  | fStrList l => rfl

/-- Helper: the round trip fixes a well-keyed panel snapshot. -/
theorem panelRT_id (p : PanelJson) (h : goodPanel p) : panelRT p = p := by
  obtain ⟨hk, hf⟩ := h
  exact jsonObjRT_id fieldRT p hk (fun q hq => fieldRT_id q.2 (hf q hq))

/-- C9 amended: put-then-get returns the JSON image of the snapshot — dict
keys become strings and duplicates collapse; on snapshots all of whose dict
keys are already strings and distinct (as the stored, string-keyed form
is), the round trip is the identity. -/
theorem C9_roundtrip_amended (s : SnapshotJson) (h : goodSnapshot s) :
    storeRoundTrip s = s := by
  obtain ⟨hk, hp⟩ := h
  unfold storeRoundTrip
  exact jsonObjRT_id panelRT s hk (fun q hq => panelRT_id q.2 (hp q hq))

theorem C9_roundtrip_amended_witness :
    storeRoundTrip
      [(.kStr "1", [(.kStr "panel_name", .fStr "p"),
        (.kStr "lists", .fDict [(.kStr "expiring", .fvStrList ["a"])])])] =
      [(.kStr "1", [(.kStr "panel_name", .fStr "p"),
        (.kStr "lists", .fDict [(.kStr "expiring", .fvStrList ["a"])])])] :=
  C9_roundtrip_amended _ (by decide)
